import Mathlib

/-!
Shallow embedding of the setup-ds-action source (src/index.ts).

External collaborators (the tool cache, the artifact downloader, archive
extraction, child-process execution, the home directory and environment
variables) are modelled as fields of an `Env` record.  Every observable
side effect of the program is recorded, in program order, in a trace of
`Effect` values.  Fallible steps return `Except DSError`.
-/

/-- ASCII whitespace stripped by the JS trim used in the source
(the additional Unicode whitespace code points are not modelled). -/
def isJsWhitespace (c : Char) : Bool :=
  c = ' ' || c = '\t' || c = '\n' || c = '\r' || c = '\x0b' || c = '\x0c'

/-- Model of the JS string trim method: strip whitespace at both ends. -/
def trimStr (s : String) : String :=
  String.mk (((s.data.dropWhile isJsWhitespace).reverse.dropWhile isJsWhitespace).reverse)

/-- Model of the JS string split method with a one-character separator. -/
def splitChar (sep : Char) : List Char → List (List Char)
  | [] => [[]]
  | c :: rest =>
    if c = sep then [] :: splitChar sep rest
    else
      match splitChar sep rest with
      | [] => [[c]]
      | g :: gs => (c :: g) :: gs

/-- Model of Node path.join for two segments: separator insertion.
Normalisation of empty or dot segments is not modelled. -/
def pathJoin (a b : String) : String := a ++ "/" ++ b

/-- Model of the POSIX isAbsolute check of Node path:
the first character is a slash. -/
def isAbsolute (s : String) : Bool := s.data.head? == some '/'

/-- Model of Node path.resolve for one argument against a working
directory.  Dot-segment normalisation is not modelled. -/
def pathResolve (cwd p : String) : String :=
  if isAbsolute p then p else cwd ++ "/" ++ p

/-- Helper for `dirname`: join segments back with slashes. -/
def joinSlash : List (List Char) → List Char
  | [] => []
  | [g] => g
  | g :: gs => g ++ '/' :: joinSlash gs

/-- Model of Node path.dirname: everything before the last slash. -/
def dirname (p : String) : String :=
  match (splitChar '/' p.data).dropLast with
  | [] => "."
  | [[]] => "/"
  | ps => String.mk (joinSlash ps)

/-- PlatformInfo interface from src/index.ts. -/
structure PlatformInfo where
  fileName : String
  binaryName : String
  ext : String
  deriving DecidableEq, Repr

/-- DownloadResult interface from src/index.ts. -/
structure DownloadResult where
  path : String
  version : String
  deriving DecidableEq, Repr

/-- The errors thrown by src/index.ts.  `thrown` carries an error
propagated unwrapped from an external collaborator. -/
inductive DSError where
  | unsupportedPlatform (platform : String)
  | unsupportedArch (arch : String)
  | missingAppData
  | downloadFailed (msg : String)
  | binaryNotFound (path : String)
  | thrown (msg : String)
  deriving DecidableEq, Repr

/-- The user-visible message of each error, as thrown in the source. -/
def errMessage : DSError → String
  | .unsupportedPlatform p => "Unsupported platform: " ++ p
  | .unsupportedArch a => "Unsupported architecture: " ++ a
  | .missingAppData => "APPDATA environment variable is not set; cannot resolve DS config path"
  | .downloadFailed m => "Failed to download DS: " ++ m
  | .binaryNotFound p => "Binary not found at " ++ p
  | .thrown m => m

/-- One observable side effect of the action, in program order. -/
inductive Effect where
  | logInfo (msg : String)
  | logWarning (msg : String)
  | setOutput (key value : String)
  | setSecret (value : String)
  | setFailed (msg : String)
  | addPath (dir : String)
  | netLatestRelease
  | netDownload (url : String)
  | fsExtractTar (archive : String)
  | fsExtractZip (archive : String)
  | execBin (bin : String) (args : List String)
  | cacheInsert (dir tool version : String)
  | fsMkdirRec (dir : String)
  | fsWriteFile (path content : String)
  | fsChmod (path : String) (mode : Nat)
  deriving DecidableEq, Repr

deriving instance DecidableEq for Except

/-- A trace of observable side effects. -/
abbrev Trace := List Effect

/-- The ambient machine and the external collaborators of the action. -/
structure Env where
  platform : String
  arch : String
  homedir : String
  appdata : Option String
  cwd : String
  cacheFind : String → String → Option String
  latestTag : Except String String
  downloadTool : String → Except String String
  extractTar : String → Except String String
  extractZip : String → Except String String
  fileExists : String → Bool
  cacheDir : String → String → String → String
  execResult : String → List String → Except String Unit

/-- The action inputs read by run; an unset input reads as "". -/
structure Inputs where
  version : String
  plugins : String
  registry : String
  token : String
  config : String
  configPath : String

/-- The OS switch in getPlatformInfo: OS token to (osPart, ext). -/
def osMap (platform : String) : Except DSError (String × String) :=
  if platform = "linux" then .ok ("linux", "tar.gz")
  else if platform = "darwin" then .ok ("darwin", "tar.gz")
  else if platform = "win32" then .ok ("windows", "zip")
  else .error (.unsupportedPlatform platform)

/-- The architecture switch in getPlatformInfo: arch token to archPart. -/
def archMap (arch : String) : Except DSError String :=
  if arch = "x64" then .ok "amd64"
  else if arch = "arm64" then .ok "arm64"
  else .error (.unsupportedArch arch)

/-- getPlatformInfo from src/index.ts. -/
def getPlatformInfo (platform arch : String) : Except DSError PlatformInfo :=
  match osMap platform with
  | .error e => .error e
  | .ok (osPart, ext) =>
    match archMap arch with
    | .error e => .error e
    | .ok archPart =>
      .ok { fileName := "ds-" ++ osPart ++ "-" ++ archPart ++ "." ++ ext,
            binaryName := if platform = "win32" then "ds.exe" else "ds",
            ext := ext }

/-- expandHome from src/index.ts: expand a leading tilde segment. -/
def expandHome (home : String) (input : String) : String :=
  match input.data with
  | [] => input
  | ['~'] => home
  | '~' :: '/' :: rest => pathJoin home (String.mk rest)
  | '~' :: '\\' :: rest => pathJoin home (String.mk rest)
  | _ => input

/-- resolveConfigPath from src/index.ts.  The JS falsiness test on the
APPDATA variable fails both for an unset and for an empty value. -/
def resolveConfigPath (env : Env) (providedPath : String) : Except DSError String :=
  if providedPath ≠ "" ∧ trimStr providedPath ≠ "" then
    .ok (pathResolve env.cwd (expandHome env.homedir (trimStr providedPath)))
  else if env.platform = "win32" then
    match env.appdata with
    | none => .error .missingAppData
    | some appData =>
      if appData = "" then .error .missingAppData
      else .ok (pathJoin (pathJoin appData "ds") "config.yaml")
  else
    .ok (pathJoin (pathJoin (pathJoin env.homedir ".config") "ds") "config.yaml")

/-- The file mode 0o600 applied to the written config file. -/
def configFileMode : Nat := 0o600

/-- writeConfigFile from src/index.ts.  The fs operations themselves are
modelled as always succeeding; they are recorded in the trace. -/
def writeConfigFile (env : Env) (content providedPath : String) :
    Trace × Except DSError String :=
  match resolveConfigPath env providedPath with
  | .error e => ([], .error e)
  | .ok targetPath =>
    ([Effect.fsMkdirRec (dirname targetPath),
      Effect.fsWriteFile targetPath content] ++
     (if env.platform ≠ "win32" then [Effect.fsChmod targetPath configFileMode] else []),
     .ok targetPath)

/-- The version ternary of downloadDS together with getLatestVersion:
in the latest case one network call resolves the most recent tag, and a
rejection of that call propagates unwrapped. -/
def resolveVersion (env : Env) (version : String) : Trace × Except DSError String :=
  if version = "latest" then
    ([Effect.logInfo "Fetching latest release...", Effect.netLatestRelease],
     match env.latestTag with
     | .ok tag => .ok tag
     | .error m => .error (.thrown m))
  else
    ([], .ok version)

/-- The extraction step of downloadDS: tar for the tar.gz format and
zip otherwise; a rejection propagates unwrapped. -/
def extractArchive (env : Env) (pinfo : PlatformInfo) (downloadPath : String) :
    Trace × Except String String :=
  if pinfo.ext = "tar.gz" then
    ([Effect.fsExtractTar downloadPath], env.extractTar downloadPath)
  else
    ([Effect.fsExtractZip downloadPath], env.extractZip downloadPath)

/-- The chmod step of downloadDS: on a non-windows platform invoke
chmod +x on the binary through the process executor. -/
def chmodStep (env : Env) (binaryPath : String) : Trace × Except String Unit :=
  if env.platform ≠ "win32" then
    ([Effect.execBin "chmod" ["+x", binaryPath]],
     env.execResult "chmod" ["+x", binaryPath])
  else
    ([], .ok ())

/-- downloadDS from src/index.ts. -/
def downloadDS (env : Env) (version token : String) :
    Trace × Except DSError DownloadResult :=
  match getPlatformInfo env.platform env.arch with
  | .error e => ([], .error e)
  | .ok pinfo =>
    match resolveVersion env version with
    | (tv, .error e) => (tv, .error e)
    | (tv, .ok actualVersion) =>
      let t0 := tv ++ [Effect.logInfo ("Installing DS " ++ actualVersion ++ " for " ++
                        env.platform ++ "-" ++ env.arch)]
      match env.cacheFind "ds" actualVersion with
      | some cachedPath =>
        (t0 ++ [Effect.logInfo ("Found DS " ++ actualVersion ++ " in cache"),
                Effect.setOutput "cache-hit" "true"],
         .ok { path := cachedPath, version := actualVersion })
      | none =>
        let t1 := t0 ++ [Effect.setOutput "cache-hit" "false"]
        let downloadUrl := "https://github.com/delivery-station/ds/releases/download/" ++
          actualVersion ++ "/" ++ pinfo.fileName
        let t2 := t1 ++ [Effect.logInfo ("Downloading from " ++ downloadUrl),
                         Effect.netDownload downloadUrl]
        match env.downloadTool downloadUrl with
        | .error m => (t2, .error (DSError.downloadFailed m))
        | .ok downloadPath =>
          let t3 := t2 ++ [Effect.logInfo "Extracting archive..."]
          match extractArchive env pinfo downloadPath with
          | (te, .error m) => (t3 ++ te, .error (DSError.thrown m))
          | (te, .ok extractedPath) =>
            let binaryPath := pathJoin extractedPath pinfo.binaryName
            if env.fileExists binaryPath then
              match chmodStep env binaryPath with
              | (tc, .error m) => (t3 ++ te ++ tc, .error (DSError.thrown m))
              | (tc, .ok _) =>
                (t3 ++ te ++ tc ++
                  [Effect.logInfo "Caching DS binary...",
                   Effect.cacheInsert extractedPath "ds" actualVersion],
                 .ok { path := env.cacheDir extractedPath "ds" actualVersion,
                       version := actualVersion })
            else
              (t3 ++ te, .error (DSError.binaryNotFound binaryPath))

/-- The plugin list parse inside installPlugins: split on comma, trim
each entry, drop empty entries. -/
def parsePlugins (pluginsList : String) : List String :=
  ((splitChar ',' pluginsList.data).map (fun g => trimStr (String.mk g))).filter
    (fun p => p ≠ "")

/-- The argument vector of one plugin install invocation: the registry
flag is appended exactly when the registry string is non-empty. -/
def pluginArgs (registry plugin : String) : List String :=
  ["plugin", "install", plugin] ++
    (if registry ≠ "" then ["--registry", registry] else [])

/-- installPlugins from src/index.ts.  Every parsed plugin is attempted
in order; a failed invocation adds a warning and the loop continues. -/
def installPlugins (env : Env) (dsPath pluginsList registry : String) :
    Trace × Except DSError Unit :=
  if pluginsList = "" ∨ trimStr pluginsList = "" then
    ([Effect.logInfo "No plugins to install"], .ok ())
  else
    match getPlatformInfo env.platform env.arch with
    | .error e => ([], .error e)
    | .ok pinfo =>
      let dsBinary := pathJoin dsPath pinfo.binaryName
      (((parsePlugins pluginsList).map (fun plugin =>
          [Effect.logInfo ("Installing plugin: " ++ plugin),
           Effect.execBin dsBinary (pluginArgs registry plugin)] ++
          (match env.execResult dsBinary (pluginArgs registry plugin) with
           | .ok _ =>
             [Effect.logInfo ("✓ Plugin " ++ plugin ++ " installed successfully")]
           | .error m =>
             [Effect.logWarning ("Failed to install plugin " ++ plugin ++ ": " ++ m)]))).flatten,
       .ok ())

/-- Lines 247 to 255 of run: decide the config-path value, writing the
file only when the content is non-blank. -/
def configStep (env : Env) (configContent configPathInput : String) :
    Trace × Except DSError String :=
  if configContent ≠ "" ∧ trimStr configContent ≠ "" then
    match writeConfigFile env configContent configPathInput with
    | (t, .ok p) =>
      ([Effect.setSecret configContent] ++ t ++
        [Effect.logInfo ("Wrote DS config to " ++ p)], .ok p)
    | (t, .error e) => ([Effect.setSecret configContent] ++ t, .error e)
  else if configPathInput ≠ "" ∧ trimStr configPathInput ≠ "" then
    (match resolveConfigPath env configPathInput with
     | .ok p => ([], .ok p)
     | .error e => ([], .error e))
  else
    ([], .ok "")

/-- run from src/index.ts: the top-level entry point.  The try/catch is
modelled by ending the trace with a single setFailed effect carrying the
message of the first error. -/
def run (env : Env) (inp : Inputs) : Trace :=
  let version := if inp.version = "" then "latest" else inp.version
  match downloadDS env version inp.token with
  | (t1, .error e) => t1 ++ [Effect.setFailed (errMessage e)]
  | (t1, .ok res) =>
    let t2 := t1 ++ [Effect.addPath res.path,
                     Effect.logInfo ("Added " ++ res.path ++ " to PATH"),
                     Effect.setOutput "version" res.version,
                     Effect.setOutput "path" res.path]
    match configStep env inp.config inp.configPath with
    | (tc, .error e) => t2 ++ tc ++ [Effect.setFailed (errMessage e)]
    | (tc, .ok configPathOut) =>
      let t3 := t2 ++ tc ++ [Effect.setOutput "config-path" configPathOut]
      match getPlatformInfo env.platform env.arch with
      | .error e => t3 ++ [Effect.setFailed (errMessage e)]
      | .ok pinfo =>
        let dsBinary := pathJoin res.path pinfo.binaryName
        let t4 := t3 ++ [Effect.execBin dsBinary ["version"]]
        match env.execResult dsBinary ["version"] with
        | .error m => t4 ++ [Effect.setFailed m]
        | .ok _ =>
          match (if inp.plugins ≠ "" then
                   installPlugins env res.path inp.plugins inp.registry
                 else
                   (([] : Trace), Except.ok ())) with
          | (tp, .error e) => t4 ++ tp ++ [Effect.setFailed (errMessage e)]
          | (tp, .ok _) =>
            t4 ++ tp ++ [Effect.logInfo "✓ DS setup completed successfully"]

/-- True for the purely informational log effects. -/
def Effect.isLog : Effect → Bool
  | .logInfo _ => true
  | .logWarning _ => true
  | _ => false

/-- True for the effect reporting overall failure. -/
def Effect.isSetFailed : Effect → Bool
  | .setFailed _ => true
  | _ => false

/-- True for effects that touch the network, spawn a process, or mutate
the filesystem or the tool cache. -/
def Effect.isMutationOrNetwork : Effect → Bool
  | .netLatestRelease => true
  | .netDownload _ => true
  | .fsExtractTar _ => true
  | .fsExtractZip _ => true
  | .execBin _ _ => true
  | .cacheInsert _ _ _ => true
  | .fsMkdirRec _ => true
  | .fsWriteFile _ _ => true
  | .fsChmod _ _ => true
  | _ => false

/-- True for effects that write the config file or create a directory. -/
def Effect.isConfigWrite : Effect → Bool
  | .fsMkdirRec _ => true
  | .fsWriteFile _ _ => true
  | .fsChmod _ _ => true
  | _ => false

/-- True for the effect that sets the config-path output. -/
def Effect.isConfigPathOutput : Effect → Bool
  | .setOutput k _ => k = "config-path"
  | _ => false

/-- The attempted child-process invocations in a trace, in order. -/
def execCalls (t : Trace) : List (String × List String) :=
  t.filterMap (fun e => match e with
    | .execBin b a => some (b, a)
    | _ => none)

/-- True when the trace reports overall failure. -/
def failed (t : Trace) : Bool := t.any Effect.isSetFailed

/-- A concrete baseline environment used to instantiate the theorems:
a linux x64 machine with an empty cache and succeeding collaborators. -/
def envLinux : Env where
  platform := "linux"
  arch := "x64"
  homedir := "/home/user"
  appdata := none
  cwd := "/work"
  cacheFind := fun _ _ => none
  latestTag := .ok "v2.0.0"
  downloadTool := fun _ => .ok "/tmp/dl"
  extractTar := fun _ => .ok "/tmp/ex"
  extractZip := fun _ => .ok "/tmp/ex"
  fileExists := fun _ => true
  cacheDir := fun _ _ _ => "/cache/ds"
  execResult := fun _ _ => .ok ()

/-! ### Basic lemmas about the string and path models -/

theorem mk_data (s : String) : String.mk s.data = s := rfl

theorem trimStr_empty : trimStr "" = "" := rfl

theorem ne_empty_of_trimStr_ne {s : String} (h : trimStr s ≠ "") : s ≠ "" := by
  intro hs
  subst hs
  exact h rfl

theorem isAbsolute_append {a : String} (b : String) (h : isAbsolute a = true) :
    isAbsolute (a ++ b) = true := by
  unfold isAbsolute at h ⊢
  rw [String.data_append]
  cases hd : a.data with
  | nil => rw [hd] at h; simp at h
  | cons c cs =>
    rw [hd] at h
    simp at h
    subst h
    simp

theorem pathJoin_absolute {a : String} (b : String) (h : isAbsolute a = true) :
    isAbsolute (pathJoin a b) = true :=
  isAbsolute_append b (isAbsolute_append "/" h)

theorem pathResolve_absolute {cwd : String} (p : String) (h : isAbsolute cwd = true) :
    isAbsolute (pathResolve cwd p) = true := by
  unfold pathResolve
  split
  · assumption
  · exact isAbsolute_append p (isAbsolute_append "/" h)

theorem expandHome_tilde (home : String) : expandHome home "~" = home := by
  unfold expandHome
  rw [show "~".data = ['~'] from rfl]
  rfl

theorem expandHome_slash (home r : String) :
    expandHome home ("~/" ++ r) = pathJoin home r := by
  have hd : ("~/" ++ r).data = '~' :: '/' :: r.data := by
    rw [String.data_append]
    rfl
  unfold expandHome
  rw [hd]
  rfl

theorem expandHome_backslash (home r : String) :
    expandHome home ("~\\" ++ r) = pathJoin home r := by
  have hd : ("~\\" ++ r).data = '~' :: '\\' :: r.data := by
    rw [String.data_append]
    rfl
  unfold expandHome
  rw [hd]
  rfl

/-! ### Classification of the effects each component can emit -/

/-- The effects downloadDS can emit: logs, the two network calls, the
cache-hit output, extraction, the chmod invocation, the cache insert. -/
def isDownloadEffect : Effect → Prop
  | .logInfo _ => True
  | .netLatestRelease => True
  | .setOutput k _ => k = "cache-hit"
  | .netDownload _ => True
  | .fsExtractTar _ => True
  | .fsExtractZip _ => True
  | .execBin b _ => b = "chmod"
  | .cacheInsert _ _ _ => True
  | _ => False

/-- The effects the config step can emit: the secret mask, the mkdir,
the file write, the chmod and a log line. -/
def isConfigStepEffect : Effect → Prop
  | .logInfo _ => True
  | .setSecret _ => True
  | .fsMkdirRec _ => True
  | .fsWriteFile _ _ => True
  | .fsChmod _ _ => True
  | _ => False

/-- The effects installPlugins can emit: logs, warnings and the plugin
install invocations. -/
def isPluginEffect : Effect → Prop
  | .logInfo _ => True
  | .logWarning _ => True
  | .execBin _ _ => True
  | _ => False

theorem resolveVersion_of_ne (env : Env) {v : String} (h : v ≠ "latest") :
    resolveVersion env v = ([], .ok v) := by
  unfold resolveVersion
  rw [if_neg h]

theorem resolveVersion_shape (env : Env) (v : String) :
    ∀ e ∈ (resolveVersion env v).1,
      e = Effect.logInfo "Fetching latest release..." ∨ e = Effect.netLatestRelease := by
  unfold resolveVersion
  split
  · intro e he
    simpa using he
  · intro e he
    simp at he

theorem extractArchive_shape (env : Env) (pinfo : PlatformInfo) (dp : String) :
    ∀ e ∈ (extractArchive env pinfo dp).1,
      (∃ p, e = Effect.fsExtractTar p) ∨ (∃ p, e = Effect.fsExtractZip p) := by
  unfold extractArchive
  split <;> intro e he <;> simp only [List.mem_singleton] at he <;> subst he <;> simp

theorem chmodStep_shape (env : Env) (bp : String) :
    ∀ e ∈ (chmodStep env bp).1, ∃ args, e = Effect.execBin "chmod" args := by
  unfold chmodStep
  split
  · intro e he
    simp only [List.mem_singleton] at he
    subst he
    exact ⟨_, rfl⟩
  · intro e he
    simp at he

theorem downloadDS_shape (env : Env) (v tok : String) :
    ∀ e ∈ (downloadDS env v tok).1, isDownloadEffect e := by
  unfold downloadDS
  split
  · simp
  next pinfo _ =>
    split
    next tv e hrv =>
      intro x hx
      have hs := resolveVersion_shape env v
      rw [hrv] at hs
      rcases hs x hx with h | h <;> subst h <;> simp [isDownloadEffect]
    next tv av hrv =>
      have htv : ∀ x ∈ tv, isDownloadEffect x := by
        have hs := resolveVersion_shape env v
        rw [hrv] at hs
        intro x hx
        rcases hs x hx with h | h <;> subst h <;> simp [isDownloadEffect]
      dsimp only
      split
      · intro x hx
        simp only [List.mem_append, List.mem_cons, List.not_mem_nil, or_false] at hx
        casesm* _ ∨ _ <;> subst_vars <;>
          first
            | exact htv x (by assumption)
            | simp [isDownloadEffect]
      · split
        · intro x hx
          simp only [List.mem_append, List.mem_cons, List.not_mem_nil, or_false] at hx
          casesm* _ ∨ _ <;> subst_vars <;>
            first
              | exact htv x (by assumption)
              | simp [isDownloadEffect]
        next downloadPath hdl =>
          have hext := extractArchive_shape env pinfo downloadPath
          split
          next te m hext2 =>
            have hte : ∀ x ∈ te, isDownloadEffect x := by
              rw [hext2] at hext
              intro x hx
              rcases hext x hx with ⟨p, hp⟩ | ⟨p, hp⟩ <;> subst hp <;> simp [isDownloadEffect]
            intro x hx
            simp only [List.mem_append, List.mem_cons, List.not_mem_nil, or_false] at hx
            casesm* _ ∨ _ <;> subst_vars <;>
              first
                | exact htv x (by assumption)
                | exact hte x (by assumption)
                | simp [isDownloadEffect]
          next te ep hext2 =>
            have hte : ∀ x ∈ te, isDownloadEffect x := by
              rw [hext2] at hext
              intro x hx
              rcases hext x hx with ⟨p, hp⟩ | ⟨p, hp⟩ <;> subst hp <;> simp [isDownloadEffect]
            split
            · have hch := chmodStep_shape env (pathJoin ep pinfo.binaryName)
              split
              next tc m hch2 =>
                have htc : ∀ x ∈ tc, isDownloadEffect x := by
                  rw [hch2] at hch
                  intro x hx
                  rcases hch x hx with ⟨args, ha⟩
                  subst ha
                  simp [isDownloadEffect]
                intro x hx
                simp only [List.mem_append, List.mem_cons, List.not_mem_nil, or_false] at hx
                casesm* _ ∨ _ <;> subst_vars <;>
                  first
                    | exact htv x (by assumption)
                    | exact hte x (by assumption)
                    | exact htc x (by assumption)
                    | simp [isDownloadEffect]
              next tc u hch2 =>
                have htc : ∀ x ∈ tc, isDownloadEffect x := by
                  rw [hch2] at hch
                  intro x hx
                  rcases hch x hx with ⟨args, ha⟩
                  subst ha
                  simp [isDownloadEffect]
                intro x hx
                simp only [List.mem_append, List.mem_cons, List.not_mem_nil, or_false] at hx
                casesm* _ ∨ _ <;> subst_vars <;>
                  first
                    | exact htv x (by assumption)
                    | exact hte x (by assumption)
                    | exact htc x (by assumption)
                    | simp [isDownloadEffect]
            · intro x hx
              simp only [List.mem_append, List.mem_cons, List.not_mem_nil, or_false] at hx
              casesm* _ ∨ _ <;> subst_vars <;>
                first
                  | exact htv x (by assumption)
                  | exact hte x (by assumption)
                  | simp [isDownloadEffect]

theorem writeConfigFile_shape (env : Env) (content pp : String) :
    ∀ e ∈ (writeConfigFile env content pp).1, isConfigStepEffect e := by
  unfold writeConfigFile
  split
  · simp
  · intro x hx
    by_cases hw : env.platform ≠ "win32"
    · rw [if_pos hw] at hx
      simp only [List.mem_append, List.mem_cons, List.not_mem_nil, or_false] at hx
      casesm* _ ∨ _ <;> subst_vars <;> simp [isConfigStepEffect]
    · rw [if_neg hw] at hx
      simp only [List.append_nil, List.mem_cons, List.not_mem_nil, or_false] at hx
      casesm* _ ∨ _ <;> subst_vars <;> simp [isConfigStepEffect]

theorem configStep_shape (env : Env) (c cp : String) :
    ∀ e ∈ (configStep env c cp).1, isConfigStepEffect e := by
  unfold configStep
  split
  · split
    next t p hw =>
      have ht : ∀ x ∈ t, isConfigStepEffect x := by
        have hs := writeConfigFile_shape env c cp
        rw [hw] at hs
        exact hs
      intro x hx
      simp only [List.mem_append, List.mem_cons, List.not_mem_nil, or_false] at hx
      casesm* _ ∨ _ <;> subst_vars <;>
        first
          | exact ht x (by assumption)
          | simp [isConfigStepEffect]
    next t e hw =>
      have ht : ∀ x ∈ t, isConfigStepEffect x := by
        have hs := writeConfigFile_shape env c cp
        rw [hw] at hs
        exact hs
      intro x hx
      simp only [List.mem_append, List.mem_cons, List.not_mem_nil, or_false] at hx
      casesm* _ ∨ _ <;> subst_vars <;>
        first
          | exact ht x (by assumption)
          | simp [isConfigStepEffect]
  · split
    · split <;> simp
    · simp

theorem pluginBlocks_shape (env : Env) (dsBinary registry : String) (l : List String) :
    ∀ e ∈ (l.map (fun plugin =>
        [Effect.logInfo ("Installing plugin: " ++ plugin),
         Effect.execBin dsBinary (pluginArgs registry plugin)] ++
        (match env.execResult dsBinary (pluginArgs registry plugin) with
         | .ok _ => [Effect.logInfo ("✓ Plugin " ++ plugin ++ " installed successfully")]
         | .error m =>
           [Effect.logWarning ("Failed to install plugin " ++ plugin ++ ": " ++ m)]))).flatten,
      isPluginEffect e := by
  induction l with
  | nil => simp
  | cons p ps ih =>
    intro x hx
    rw [List.map_cons, List.flatten_cons] at hx
    rcases List.mem_append.mp hx with hx | hx
    · cases henv : env.execResult dsBinary (pluginArgs registry p) <;>
        rw [henv] at hx <;>
        simp only [List.mem_append, List.mem_cons, List.not_mem_nil, or_false] at hx <;>
        casesm* _ ∨ _ <;> subst_vars <;> simp [isPluginEffect]
    · exact ih x hx

theorem installPlugins_shape (env : Env) (dsPath l registry : String) :
    ∀ e ∈ (installPlugins env dsPath l registry).1, isPluginEffect e := by
  unfold installPlugins
  split
  · intro x hx
    simp only [List.mem_cons, List.not_mem_nil, or_false] at hx
    subst hx
    simp [isPluginEffect]
  · split
    · simp
    next pinfo _ =>
      intro x hx
      exact pluginBlocks_shape env (pathJoin dsPath pinfo.binaryName) registry
        (parsePlugins l) x hx

theorem installPlugins_snd_ok (env : Env) (dsPath l registry : String) (pinfo : PlatformInfo)
    (hpi : getPlatformInfo env.platform env.arch = .ok pinfo) :
    (installPlugins env dsPath l registry).2 = .ok () := by
  unfold installPlugins
  split
  · rfl
  · rw [hpi]

theorem isDownloadEffect_props {x : Effect} (h : isDownloadEffect x) :
    x.isSetFailed = false ∧ x.isConfigWrite = false ∧ x.isConfigPathOutput = false := by
  cases x <;>
    simp_all [isDownloadEffect, Effect.isSetFailed, Effect.isConfigWrite,
      Effect.isConfigPathOutput]

theorem isConfigStepEffect_props {x : Effect} (h : isConfigStepEffect x) :
    x.isSetFailed = false ∧ x.isConfigPathOutput = false := by
  cases x <;>
    simp_all [isConfigStepEffect, Effect.isSetFailed, Effect.isConfigPathOutput]

theorem isPluginEffect_props {x : Effect} (h : isPluginEffect x) :
    x.isSetFailed = false ∧ x.isConfigWrite = false ∧ x.isConfigPathOutput = false := by
  cases x <;>
    simp_all [isPluginEffect, Effect.isSetFailed, Effect.isConfigWrite,
      Effect.isConfigPathOutput]

theorem execCalls_append (a b : Trace) :
    execCalls (a ++ b) = execCalls a ++ execCalls b := by
  unfold execCalls
  exact List.filterMap_append a b _

theorem execCalls_pluginBlocks (env : Env) (dsBinary registry : String) (l : List String) :
    execCalls ((l.map (fun plugin =>
        [Effect.logInfo ("Installing plugin: " ++ plugin),
         Effect.execBin dsBinary (pluginArgs registry plugin)] ++
        (match env.execResult dsBinary (pluginArgs registry plugin) with
         | .ok _ => [Effect.logInfo ("✓ Plugin " ++ plugin ++ " installed successfully")]
         | .error m =>
           [Effect.logWarning ("Failed to install plugin " ++ plugin ++ ": " ++ m)]))).flatten) =
      l.map (fun p => (dsBinary, pluginArgs registry p)) := by
  induction l with
  | nil => rfl
  | cons p ps ih =>
    rw [List.map_cons, List.flatten_cons, execCalls_append, ih, List.map_cons]
    cases henv : env.execResult dsBinary (pluginArgs registry p) <;>
      simp [execCalls, henv]

theorem installPlugins_execCalls (env : Env) (dsPath l registry : String)
    (pinfo : PlatformInfo)
    (hpi : getPlatformInfo env.platform env.arch = .ok pinfo)
    (hl : trimStr l ≠ "") :
    execCalls (installPlugins env dsPath l registry).1 =
      (parsePlugins l).map
        (fun p => (pathJoin dsPath pinfo.binaryName, pluginArgs registry p)) := by
  have hl0 : l ≠ "" := ne_empty_of_trimStr_ne hl
  unfold installPlugins
  rw [if_neg (not_or.mpr ⟨hl0, hl⟩), hpi]
  exact execCalls_pluginBlocks env (pathJoin dsPath pinfo.binaryName) registry (parsePlugins l)

theorem installPlugins_warn (env : Env) (dsPath l registry : String)
    (pinfo : PlatformInfo) (p m : String)
    (hpi : getPlatformInfo env.platform env.arch = .ok pinfo)
    (hl : trimStr l ≠ "")
    (hp : p ∈ parsePlugins l)
    (hm : env.execResult (pathJoin dsPath pinfo.binaryName) (pluginArgs registry p) =
      .error m) :
    Effect.logWarning ("Failed to install plugin " ++ p ++ ": " ++ m) ∈
      (installPlugins env dsPath l registry).1 := by
  have hl0 : l ≠ "" := ne_empty_of_trimStr_ne hl
  unfold installPlugins
  rw [if_neg (not_or.mpr ⟨hl0, hl⟩), hpi]
  apply List.mem_flatten.mpr
  refine ⟨_, List.mem_map_of_mem _ hp, ?_⟩
  rw [hm]
  simp

theorem countP_setFailed_downloadDS (env : Env) (v tok : String) :
    (downloadDS env v tok).1.countP Effect.isSetFailed = 0 := by
  rw [List.countP_eq_zero]
  intro x hx
  simp [(isDownloadEffect_props (downloadDS_shape env v tok x hx)).1]

theorem countP_setFailed_configStep (env : Env) (c cp : String) :
    (configStep env c cp).1.countP Effect.isSetFailed = 0 := by
  rw [List.countP_eq_zero]
  intro x hx
  simp [(isConfigStepEffect_props (configStep_shape env c cp x hx)).1]

theorem countP_setFailed_installPlugins (env : Env) (dsPath l registry : String) :
    (installPlugins env dsPath l registry).1.countP Effect.isSetFailed = 0 := by
  rw [List.countP_eq_zero]
  intro x hx
  simp [(isPluginEffect_props (installPlugins_shape env dsPath l registry x hx)).1]

/-! ### Equations for the entry point under each outcome -/

theorem run_downloadFail (env : Env) (inp : Inputs) (t1 : Trace) (e : DSError)
    (hdl : downloadDS env (if inp.version = "" then "latest" else inp.version) inp.token =
      (t1, .error e)) :
    run env inp = t1 ++ [Effect.setFailed (errMessage e)] := by
  unfold run
  dsimp only
  rw [hdl]

theorem run_configFail (env : Env) (inp : Inputs) (t1 : Trace) (res : DownloadResult)
    (tc : Trace) (e : DSError)
    (hdl : downloadDS env (if inp.version = "" then "latest" else inp.version) inp.token =
      (t1, .ok res))
    (hcfg : configStep env inp.config inp.configPath = (tc, .error e)) :
    run env inp =
      t1 ++ [Effect.addPath res.path,
             Effect.logInfo ("Added " ++ res.path ++ " to PATH"),
             Effect.setOutput "version" res.version,
             Effect.setOutput "path" res.path] ++ tc ++
        [Effect.setFailed (errMessage e)] := by
  unfold run
  dsimp only
  rw [hdl]
  dsimp only
  rw [hcfg]

theorem run_selfcheckFail (env : Env) (inp : Inputs) (t1 : Trace) (res : DownloadResult)
    (tc : Trace) (cfg : String) (pinfo : PlatformInfo) (m : String)
    (hdl : downloadDS env (if inp.version = "" then "latest" else inp.version) inp.token =
      (t1, .ok res))
    (hcfg : configStep env inp.config inp.configPath = (tc, .ok cfg))
    (hpi : getPlatformInfo env.platform env.arch = .ok pinfo)
    (hex : env.execResult (pathJoin res.path pinfo.binaryName) ["version"] = .error m) :
    run env inp =
      t1 ++ [Effect.addPath res.path,
             Effect.logInfo ("Added " ++ res.path ++ " to PATH"),
             Effect.setOutput "version" res.version,
             Effect.setOutput "path" res.path] ++ tc ++
        [Effect.setOutput "config-path" cfg] ++
        [Effect.execBin (pathJoin res.path pinfo.binaryName) ["version"]] ++
        [Effect.setFailed m] := by
  unfold run
  dsimp only
  rw [hdl]
  dsimp only
  rw [hcfg]
  dsimp only
  rw [hpi]
  dsimp only
  rw [hex]

theorem run_allOk (env : Env) (inp : Inputs) (t1 : Trace) (res : DownloadResult)
    (tc : Trace) (cfg : String) (pinfo : PlatformInfo) (tp : Trace) (u : Unit)
    (hdl : downloadDS env (if inp.version = "" then "latest" else inp.version) inp.token =
      (t1, .ok res))
    (hcfg : configStep env inp.config inp.configPath = (tc, .ok cfg))
    (hpi : getPlatformInfo env.platform env.arch = .ok pinfo)
    (hex : env.execResult (pathJoin res.path pinfo.binaryName) ["version"] = .ok ())
    (hplug : (if inp.plugins ≠ "" then installPlugins env res.path inp.plugins inp.registry
              else (([] : Trace), Except.ok ())) = (tp, Except.ok u)) :
    run env inp =
      t1 ++ [Effect.addPath res.path,
             Effect.logInfo ("Added " ++ res.path ++ " to PATH"),
             Effect.setOutput "version" res.version,
             Effect.setOutput "path" res.path] ++ tc ++
        [Effect.setOutput "config-path" cfg] ++
        [Effect.execBin (pathJoin res.path pinfo.binaryName) ["version"]] ++ tp ++
        [Effect.logInfo "✓ DS setup completed successfully"] := by
  unfold run
  dsimp only
  rw [hdl]
  dsimp only
  rw [hcfg]
  dsimp only
  rw [hpi]
  dsimp only
  rw [hex]
  dsimp only
  rw [hplug]

theorem any_setFailed_downloadDS (env : Env) (v tok : String) :
    (downloadDS env v tok).1.any Effect.isSetFailed = false := by
  rw [List.any_eq_false]
  intro x hx
  simp [(isDownloadEffect_props (downloadDS_shape env v tok x hx)).1]

theorem any_setFailed_configStep (env : Env) (c cp : String) :
    (configStep env c cp).1.any Effect.isSetFailed = false := by
  rw [List.any_eq_false]
  intro x hx
  simp [(isConfigStepEffect_props (configStep_shape env c cp x hx)).1]

theorem any_setFailed_installPlugins (env : Env) (dsPath l registry : String) :
    (installPlugins env dsPath l registry).1.any Effect.isSetFailed = false := by
  rw [List.any_eq_false]
  intro x hx
  simp [(isPluginEffect_props (installPlugins_shape env dsPath l registry x hx)).1]

theorem filter_configWrite_downloadDS (env : Env) (v tok : String) :
    (downloadDS env v tok).1.filter Effect.isConfigWrite = [] := by
  rw [List.filter_eq_nil_iff]
  intro x hx
  simp [(isDownloadEffect_props (downloadDS_shape env v tok x hx)).2.1]

theorem filter_configWrite_installPlugins (env : Env) (dsPath l registry : String) :
    (installPlugins env dsPath l registry).1.filter Effect.isConfigWrite = [] := by
  rw [List.filter_eq_nil_iff]
  intro x hx
  simp [(isPluginEffect_props (installPlugins_shape env dsPath l registry x hx)).2.1]

theorem filter_configPathOutput_downloadDS (env : Env) (v tok : String) :
    (downloadDS env v tok).1.filter Effect.isConfigPathOutput = [] := by
  rw [List.filter_eq_nil_iff]
  intro x hx
  simp [(isDownloadEffect_props (downloadDS_shape env v tok x hx)).2.2]

theorem filter_configPathOutput_configStep (env : Env) (c cp : String) :
    (configStep env c cp).1.filter Effect.isConfigPathOutput = [] := by
  rw [List.filter_eq_nil_iff]
  intro x hx
  simp [(isConfigStepEffect_props (configStep_shape env c cp x hx)).2]

theorem filter_configPathOutput_installPlugins (env : Env) (dsPath l registry : String) :
    (installPlugins env dsPath l registry).1.filter Effect.isConfigPathOutput = [] := by
  rw [List.filter_eq_nil_iff]
  intro x hx
  simp [(isPluginEffect_props (installPlugins_shape env dsPath l registry x hx)).2.2]

/-! ### Branch equations for the config path resolver and config step -/

theorem resolveConfigPath_provided (env : Env) (p : String) (h : trimStr p ≠ "") :
    resolveConfigPath env p =
      .ok (pathResolve env.cwd (expandHome env.homedir (trimStr p))) := by
  unfold resolveConfigPath
  rw [if_pos ⟨ne_empty_of_trimStr_ne h, h⟩]

theorem resolveConfigPath_win_missing (env : Env) (p : String) (h : trimStr p = "")
    (hw : env.platform = "win32") (ha : env.appdata = none ∨ env.appdata = some "") :
    resolveConfigPath env p = .error .missingAppData := by
  unfold resolveConfigPath
  rw [if_neg (fun hx => hx.2 h), if_pos hw]
  rcases ha with ha | ha <;> rw [ha]
  rfl

theorem resolveConfigPath_win_ok (env : Env) (p s : String) (h : trimStr p = "")
    (hw : env.platform = "win32") (ha : env.appdata = some s) (hs : s ≠ "") :
    resolveConfigPath env p = .ok (pathJoin (pathJoin s "ds") "config.yaml") := by
  unfold resolveConfigPath
  rw [if_neg (fun hx => hx.2 h), if_pos hw, ha]
  dsimp only
  rw [if_neg hs]

theorem resolveConfigPath_default (env : Env) (p : String) (h : trimStr p = "")
    (hw : env.platform ≠ "win32") :
    resolveConfigPath env p =
      .ok (pathJoin (pathJoin (pathJoin env.homedir ".config") "ds") "config.yaml") := by
  unfold resolveConfigPath
  rw [if_neg (fun hx => hx.2 h), if_neg hw]

theorem resolveConfigPath_abs (env : Env) (p target : String)
    (hcwd : isAbsolute env.cwd = true) (hhome : isAbsolute env.homedir = true)
    (happ : ∀ s, env.appdata = some s → isAbsolute s = true)
    (h : resolveConfigPath env p = .ok target) : isAbsolute target = true := by
  unfold resolveConfigPath at h
  split at h
  · cases h
    exact pathResolve_absolute _ hcwd
  · split at h
    · split at h
      · cases h
      next s hs =>
        split at h
        · cases h
        · cases h
          exact pathJoin_absolute _ (pathJoin_absolute _ (happ s hs))
    · cases h
      exact pathJoin_absolute _ (pathJoin_absolute _ (pathJoin_absolute _ hhome))

theorem writeConfigFile_eq (env : Env) (c pp target : String)
    (h : resolveConfigPath env pp = .ok target) :
    writeConfigFile env c pp =
      ([Effect.fsMkdirRec (dirname target), Effect.fsWriteFile target c] ++
        (if env.platform ≠ "win32" then [Effect.fsChmod target configFileMode] else []),
       .ok target) := by
  unfold writeConfigFile
  rw [h]

theorem configStep_write (env : Env) (c cp target : String) (hc : trimStr c ≠ "")
    (hres : resolveConfigPath env cp = .ok target) :
    configStep env c cp =
      ([Effect.setSecret c] ++
        ([Effect.fsMkdirRec (dirname target), Effect.fsWriteFile target c] ++
          (if env.platform ≠ "win32" then [Effect.fsChmod target configFileMode] else [])) ++
        [Effect.logInfo ("Wrote DS config to " ++ target)],
       .ok target) := by
  unfold configStep
  rw [if_pos ⟨ne_empty_of_trimStr_ne hc, hc⟩, writeConfigFile_eq env c cp target hres]

theorem configStep_resolveOnly (env : Env) (c cp : String) (hc : trimStr c = "")
    (hp : trimStr cp ≠ "") :
    configStep env c cp =
      ([], .ok (pathResolve env.cwd (expandHome env.homedir (trimStr cp)))) := by
  unfold configStep
  rw [if_neg (fun hx => hx.2 hc), if_pos ⟨ne_empty_of_trimStr_ne hp, hp⟩,
    resolveConfigPath_provided env cp hp]

theorem configStep_blank (env : Env) (c cp : String) (hc : trimStr c = "")
    (hp : trimStr cp = "") :
    configStep env c cp = ([], .ok "") := by
  unfold configStep
  rw [if_neg (fun hx => hx.2 hc), if_neg (fun hx => hx.2 hp)]

/-! ### Entry point corollaries -/

theorem pluginStep_snd_ok (env : Env) (res : DownloadResult) (inp : Inputs)
    (pinfo : PlatformInfo)
    (hpi : getPlatformInfo env.platform env.arch = .ok pinfo) :
    (if inp.plugins ≠ "" then installPlugins env res.path inp.plugins inp.registry
     else (([] : Trace), Except.ok ())).2 = .ok () := by
  split
  · exact installPlugins_snd_ok env res.path inp.plugins inp.registry pinfo hpi
  · rfl

theorem pluginStep_any_setFailed (env : Env) (res : DownloadResult) (inp : Inputs) :
    (if inp.plugins ≠ "" then installPlugins env res.path inp.plugins inp.registry
     else (([] : Trace), Except.ok ())).1.any Effect.isSetFailed = false := by
  split
  · exact any_setFailed_installPlugins env res.path inp.plugins inp.registry
  · rfl

theorem pluginStep_filter_configWrite (env : Env) (res : DownloadResult) (inp : Inputs) :
    (if inp.plugins ≠ "" then installPlugins env res.path inp.plugins inp.registry
     else (([] : Trace), Except.ok ())).1.filter Effect.isConfigWrite = [] := by
  split
  · exact filter_configWrite_installPlugins env res.path inp.plugins inp.registry
  · rfl

theorem pluginStep_filter_configPathOutput (env : Env) (res : DownloadResult) (inp : Inputs) :
    (if inp.plugins ≠ "" then installPlugins env res.path inp.plugins inp.registry
     else (([] : Trace), Except.ok ())).1.filter Effect.isConfigPathOutput = [] := by
  split
  · exact filter_configPathOutput_installPlugins env res.path inp.plugins inp.registry
  · rfl

theorem run_ok_not_failed (env : Env) (inp : Inputs) (t1 : Trace) (res : DownloadResult)
    (tc : Trace) (cfg : String) (pinfo : PlatformInfo)
    (hdl : downloadDS env (if inp.version = "" then "latest" else inp.version) inp.token =
      (t1, .ok res))
    (hcfg : configStep env inp.config inp.configPath = (tc, .ok cfg))
    (hpi : getPlatformInfo env.platform env.arch = .ok pinfo)
    (hex : env.execResult (pathJoin res.path pinfo.binaryName) ["version"] = .ok ()) :
    failed (run env inp) = false := by
  rcases hplug : (if inp.plugins ≠ "" then installPlugins env res.path inp.plugins inp.registry
                  else (([] : Trace), Except.ok ())) with ⟨tp, rp⟩
  have hrp : rp = .ok () := by
    have := pluginStep_snd_ok env res inp pinfo hpi
    rw [hplug] at this
    exact this
  subst hrp
  have h1 : t1.any Effect.isSetFailed = false := by
    have := any_setFailed_downloadDS env
      (if inp.version = "" then "latest" else inp.version) inp.token
    rw [hdl] at this
    exact this
  have h2 : tc.any Effect.isSetFailed = false := by
    have := any_setFailed_configStep env inp.config inp.configPath
    rw [hcfg] at this
    exact this
  have h3 : tp.any Effect.isSetFailed = false := by
    have := pluginStep_any_setFailed env res inp
    rw [hplug] at this
    exact this
  rw [run_allOk env inp t1 res tc cfg pinfo tp () hdl hcfg hpi hex hplug]
  unfold failed
  simp [List.any_append, h1, h2, h3, Effect.isSetFailed]

theorem countP_setFailed_pluginStep (env : Env) (res : DownloadResult) (inp : Inputs)
    (tp : Trace) (r : Except DSError Unit)
    (h : (if inp.plugins ≠ "" then installPlugins env res.path inp.plugins inp.registry
          else (([] : Trace), Except.ok ())) = (tp, r)) :
    tp.countP Effect.isSetFailed = 0 := by
  split at h
  · have := countP_setFailed_installPlugins env res.path inp.plugins inp.registry
    rw [h] at this
    exact this
  · cases h
    rfl

theorem run_countP_setFailed_le_one (env : Env) (inp : Inputs) :
    (run env inp).countP Effect.isSetFailed ≤ 1 := by
  unfold run
  dsimp only
  split
  next t1 e hdl =>
    have h1 : t1.countP Effect.isSetFailed = 0 := by
      have := countP_setFailed_downloadDS env
        (if inp.version = "" then "latest" else inp.version) inp.token
      rw [hdl] at this
      exact this
    simp [List.countP_append, List.countP_cons, h1, Effect.isSetFailed]
  next t1 res hdl =>
    have h1 : t1.countP Effect.isSetFailed = 0 := by
      have := countP_setFailed_downloadDS env
        (if inp.version = "" then "latest" else inp.version) inp.token
      rw [hdl] at this
      exact this
    split
    next tc e hcfg =>
      have h2 : tc.countP Effect.isSetFailed = 0 := by
        have := countP_setFailed_configStep env inp.config inp.configPath
        rw [hcfg] at this
        exact this
      simp [List.countP_append, List.countP_cons, h1, h2, Effect.isSetFailed]
    next tc cfg hcfg =>
      have h2 : tc.countP Effect.isSetFailed = 0 := by
        have := countP_setFailed_configStep env inp.config inp.configPath
        rw [hcfg] at this
        exact this
      split
      · simp [List.countP_append, List.countP_cons, h1, h2, Effect.isSetFailed]
      · split
        · simp [List.countP_append, List.countP_cons, h1, h2, Effect.isSetFailed]
        · split
          next tp e hplug =>
            have h3 := countP_setFailed_pluginStep env res inp tp _ hplug
            simp [List.countP_append, List.countP_cons, h1, h2, h3, Effect.isSetFailed]
          next tp u hplug =>
            have h3 := countP_setFailed_pluginStep env res inp tp _ hplug
            simp [List.countP_append, List.countP_cons, h1, h2, h3, Effect.isSetFailed]

/-! ### Claim theorems -/

/-- C1 (amended with the two preconditions the code imposes: the
ambient platform is supported and the version token is not the sentinel
latest): when the tool cache contains an entry for ("ds", v), downloadDS
returns the cached directory path with resolved version v, its only
non-log effect is setting the cache-hit output to "true", and it
performs no network call, no download, no extraction, no chmod
invocation, no cache insertion and no filesystem mutation. -/
theorem c1_cache_hit (env : Env) (v tok cached : String) (pinfo : PlatformInfo)
    (hpi : getPlatformInfo env.platform env.arch = .ok pinfo)
    (hv : v ≠ "latest")
    (hc : env.cacheFind "ds" v = some cached) :
    (downloadDS env v tok).2 = .ok { path := cached, version := v } ∧
    (downloadDS env v tok).1.filter (fun e => !e.isLog) =
      [Effect.setOutput "cache-hit" "true"] ∧
    (downloadDS env v tok).1.filter Effect.isMutationOrNetwork = [] := by
  unfold downloadDS
  rw [hpi, resolveVersion_of_ne env hv]
  dsimp only
  rw [hc]
  refine ⟨rfl, ?_, ?_⟩ <;> simp [Effect.isLog, Effect.isMutationOrNetwork]

/-- A concrete environment whose tool cache holds version v1.2.3. -/
def envC1 : Env :=
  { envLinux with
      cacheFind := fun t v => if t = "ds" && v = "v1.2.3" then some "/cache/hit" else none }

/-- Witness for c1_cache_hit on a linux x64 machine with v1.2.3 cached. -/
theorem c1_cache_hit_witness :
    (downloadDS envC1 "v1.2.3" "tok").2 = .ok { path := "/cache/hit", version := "v1.2.3" } ∧
    (downloadDS envC1 "v1.2.3" "tok").1.filter (fun e => !e.isLog) =
      [Effect.setOutput "cache-hit" "true"] ∧
    (downloadDS envC1 "v1.2.3" "tok").1.filter Effect.isMutationOrNetwork = [] :=
  c1_cache_hit envC1 "v1.2.3" "tok" "/cache/hit"
    { fileName := "ds-linux-amd64.tar.gz", binaryName := "ds", ext := "tar.gz" }
    (by decide) (by decide) (by decide)

/-- A concrete environment whose tool cache holds an entry under the
literal key ("ds", "latest") while the most recent release tag is
v9.9.9 and is not cached. -/
def envC1x : Env :=
  { envLinux with
      cacheFind := fun t v => if t = "ds" && v = "latest" then some "/cache/latest" else none,
      latestTag := .ok "v9.9.9",
      downloadTool := fun _ => .error "HTTP 404" }

/-- Counterexample to C1 as stated: for the version token latest the
cache does contain ("ds", "latest"), yet downloadDS performs a network
call and does not return the cached entry, because the sentinel is
resolved against the release index before the cache lookup. -/
theorem c1_counterexample :
    envC1x.cacheFind "ds" "latest" = some "/cache/latest" ∧
    Effect.netLatestRelease ∈ (downloadDS envC1x "latest" "").1 ∧
    (downloadDS envC1x "latest" "").2 ≠
      Except.ok { path := "/cache/latest", version := "latest" } := by
  exact ⟨by decide, by decide, by decide⟩

/-- C2: the platform resolver maps the six supported pairs exactly as
the table says, fails with an unsupported-platform error for every other
OS token, fails with an unsupported-architecture error for a supported
OS with any other architecture token, and a failing platform resolution
aborts downloadDS with an empty trace, before any network or filesystem
access. -/
theorem c2_platform_resolver :
    getPlatformInfo "linux" "x64" =
      .ok { fileName := "ds-linux-amd64.tar.gz", binaryName := "ds", ext := "tar.gz" } ∧
    getPlatformInfo "linux" "arm64" =
      .ok { fileName := "ds-linux-arm64.tar.gz", binaryName := "ds", ext := "tar.gz" } ∧
    getPlatformInfo "darwin" "x64" =
      .ok { fileName := "ds-darwin-amd64.tar.gz", binaryName := "ds", ext := "tar.gz" } ∧
    getPlatformInfo "darwin" "arm64" =
      .ok { fileName := "ds-darwin-arm64.tar.gz", binaryName := "ds", ext := "tar.gz" } ∧
    getPlatformInfo "win32" "x64" =
      .ok { fileName := "ds-windows-amd64.zip", binaryName := "ds.exe", ext := "zip" } ∧
    getPlatformInfo "win32" "arm64" =
      .ok { fileName := "ds-windows-arm64.zip", binaryName := "ds.exe", ext := "zip" } ∧
    (∀ p a, p ≠ "linux" → p ≠ "darwin" → p ≠ "win32" →
      getPlatformInfo p a = .error (.unsupportedPlatform p)) ∧
    (∀ p a, (p = "linux" ∨ p = "darwin" ∨ p = "win32") → a ≠ "x64" → a ≠ "arm64" →
      getPlatformInfo p a = .error (.unsupportedArch a)) ∧
    (∀ env version tok e, getPlatformInfo env.platform env.arch = .error e →
      downloadDS env version tok = ([], .error e)) := by
  refine ⟨by decide, by decide, by decide, by decide, by decide, by decide, ?_, ?_, ?_⟩
  · intro p a h1 h2 h3
    unfold getPlatformInfo osMap
    rw [if_neg h1, if_neg h2, if_neg h3]
  · intro p a hp h1 h2
    unfold getPlatformInfo osMap archMap
    rcases hp with hp | hp | hp <;> subst hp <;> simp [h1, h2]
  · intro env version tok e h
    unfold downloadDS
    rw [h]

/-- Witness for c2_platform_resolver: the failure clauses at concrete
unsupported tokens. -/
theorem c2_platform_resolver_witness :
    getPlatformInfo "sunos" "x64" = .error (.unsupportedPlatform "sunos") ∧
    getPlatformInfo "linux" "mips" = .error (.unsupportedArch "mips") ∧
    downloadDS { envLinux with platform := "sunos" } "v1.0.0" "" =
      ([], .error (.unsupportedPlatform "sunos")) :=
  ⟨c2_platform_resolver.2.2.2.2.2.2.1 "sunos" "x64" (by decide) (by decide) (by decide),
   c2_platform_resolver.2.2.2.2.2.2.2.1 "linux" "mips" (Or.inl rfl) (by decide) (by decide),
   c2_platform_resolver.2.2.2.2.2.2.2.2 { envLinux with platform := "sunos" } "v1.0.0" ""
     (DSError.unsupportedPlatform "sunos") (by decide)⟩

/-- C3 (amended in the APPDATA clause: the resolver fails exactly when
the APPDATA variable is unset or set to the empty string, both being
falsy to the code): a non-blank supplied path is trimmed, a leading
tilde segment expands to the home directory and the result resolves to
an absolute path; otherwise on win32 the result is
APPDATA/ds/config.yaml; otherwise home/.config/ds/config.yaml. -/
theorem c3_resolve_config_path :
    (∀ env p, trimStr p ≠ "" →
      resolveConfigPath env p =
        .ok (pathResolve env.cwd (expandHome env.homedir (trimStr p)))) ∧
    (∀ home, expandHome home "~" = home) ∧
    (∀ home r, expandHome home ("~/" ++ r) = pathJoin home r) ∧
    (∀ home r, expandHome home ("~\\" ++ r) = pathJoin home r) ∧
    (∀ env p target, trimStr p ≠ "" → isAbsolute env.cwd = true →
      resolveConfigPath env p = .ok target → isAbsolute target = true) ∧
    (∀ env p, trimStr p = "" → env.platform = "win32" →
      ((env.appdata = none ∨ env.appdata = some "") ↔
        resolveConfigPath env p = .error .missingAppData)) ∧
    (∀ env p s, trimStr p = "" → env.platform = "win32" → env.appdata = some s → s ≠ "" →
      resolveConfigPath env p = .ok (pathJoin (pathJoin s "ds") "config.yaml")) ∧
    (∀ env p, trimStr p = "" → env.platform ≠ "win32" →
      resolveConfigPath env p =
        .ok (pathJoin (pathJoin (pathJoin env.homedir ".config") "ds") "config.yaml")) := by
  refine ⟨?_, expandHome_tilde, expandHome_slash, expandHome_backslash, ?_, ?_, ?_, ?_⟩
  · exact fun env p h => resolveConfigPath_provided env p h
  · intro env p target h hcwd heq
    rw [resolveConfigPath_provided env p h] at heq
    cases heq
    exact pathResolve_absolute _ hcwd
  · intro env p h hw
    constructor
    · exact fun ha => resolveConfigPath_win_missing env p h hw ha
    · intro heq
      rcases ha : env.appdata with _ | s
      · exact Or.inl rfl
      · rcases hs : decide (s = "") with _ | _
        · exfalso
          have hs' : s ≠ "" := of_decide_eq_false hs
          rw [resolveConfigPath_win_ok env p s h hw ha hs'] at heq
          cases heq
        · have hs' := of_decide_eq_true hs
          subst hs'
          exact Or.inr rfl
  · exact fun env p s h hw ha hs => resolveConfigPath_win_ok env p s h hw ha hs
  · exact fun env p h hw => resolveConfigPath_default env p h hw

/-- A concrete win32 environment whose APPDATA variable is set to the
empty string. -/
def envWinEmptyAppdata : Env :=
  { envLinux with platform := "win32", appdata := some "" }

/-- Counterexample to C3 as stated: with a blank supplied path on win32
the resolver fails with MissingEnvironment although the APPDATA
variable is not unset (it is set to the empty string), so failing
exactly when the variable is unset is refuted. -/
theorem c3_counterexample :
    envWinEmptyAppdata.appdata ≠ none ∧
    resolveConfigPath envWinEmptyAppdata "" = .error DSError.missingAppData := by
  exact ⟨by decide, by decide⟩

/-- Witness for c3_resolve_config_path: a tilde path on a concrete
machine, the win32 default with APPDATA unset, and the posix default. -/
theorem c3_resolve_config_path_witness :
    resolveConfigPath envLinux "~/cfg.yaml" =
      .ok (pathResolve envLinux.cwd (expandHome envLinux.homedir (trimStr "~/cfg.yaml"))) ∧
    expandHome "/home/user" "~" = "/home/user" ∧
    ((({ envLinux with platform := "win32", appdata := none } : Env).appdata = none ∨
       ({ envLinux with platform := "win32", appdata := none } : Env).appdata = some "") ↔
      resolveConfigPath { envLinux with platform := "win32", appdata := none } "" =
        .error .missingAppData) ∧
    resolveConfigPath envLinux "" =
      .ok (pathJoin (pathJoin (pathJoin envLinux.homedir ".config") "ds") "config.yaml") :=
  ⟨c3_resolve_config_path.1 envLinux "~/cfg.yaml" (by decide),
   c3_resolve_config_path.2.1 "/home/user",
   c3_resolve_config_path.2.2.2.2.2.1 { envLinux with platform := "win32", appdata := none }
     "" (by decide) (by decide),
   c3_resolve_config_path.2.2.2.2.2.2.2 envLinux "" (by decide) (by decide)⟩

/-- C4: the plugin installer parses its input by splitting on commas,
trimming each entry and dropping empty entries, keeping order and
duplicates, and invokes the binary once per resulting entry in that
order; in particular "a, ,b,a" yields exactly the three invocations for
a, b, a in that order. -/
theorem c4_plugin_parse_order :
    (∀ env dsPath l registry pinfo,
      getPlatformInfo env.platform env.arch = .ok pinfo → trimStr l ≠ "" →
      execCalls (installPlugins env dsPath l registry).1 =
        (parsePlugins l).map
          (fun p => (pathJoin dsPath pinfo.binaryName, pluginArgs registry p))) ∧
    parsePlugins "a, ,b,a" = ["a", "b", "a"] ∧
    execCalls (installPlugins envLinux "/ds" "a, ,b,a" "").1 =
      [("/ds/ds", ["plugin", "install", "a"]),
       ("/ds/ds", ["plugin", "install", "b"]),
       ("/ds/ds", ["plugin", "install", "a"])] := by
  exact ⟨fun env dsPath l registry pinfo hpi hl =>
      installPlugins_execCalls env dsPath l registry pinfo hpi hl,
    by decide, by decide⟩

/-- Witness for c4_plugin_parse_order: the invocation list on a concrete
machine equals the parse mapped to argument vectors. -/
theorem c4_plugin_parse_order_witness :
    execCalls (installPlugins envLinux "/opt" "x, y" "r").1 =
      (parsePlugins "x, y").map
        (fun p => (pathJoin "/opt"
          ({ fileName := "ds-linux-amd64.tar.gz", binaryName := "ds", ext := "tar.gz" } :
            PlatformInfo).binaryName, pluginArgs "r" p)) :=
  c4_plugin_parse_order.1 envLinux "/opt" "x, y" "r"
    { fileName := "ds-linux-amd64.tar.gz", binaryName := "ds", ext := "tar.gz" }
    (by decide) (by decide)

/-- C5: all parsed plugin installations are attempted in sequence even
when some fail: installPlugins itself never returns an error, the number
of attempted invocations equals the number of parsed entries whatever
the invocation results are, a failing invocation leaves a warning in the
trace at its point of occurrence, and a run whose earlier steps succeed
is never marked failed no matter what the plugin invocations return. -/
theorem c5_best_effort :
    (∀ env dsPath l registry pinfo,
      getPlatformInfo env.platform env.arch = .ok pinfo →
      (installPlugins env dsPath l registry).2 = .ok ()) ∧
    (∀ env dsPath l registry pinfo,
      getPlatformInfo env.platform env.arch = .ok pinfo → trimStr l ≠ "" →
      (execCalls (installPlugins env dsPath l registry).1).length =
        (parsePlugins l).length) ∧
    (∀ env dsPath l registry pinfo p m,
      getPlatformInfo env.platform env.arch = .ok pinfo → trimStr l ≠ "" →
      p ∈ parsePlugins l →
      env.execResult (pathJoin dsPath pinfo.binaryName) (pluginArgs registry p) =
        .error m →
      Effect.logWarning ("Failed to install plugin " ++ p ++ ": " ++ m) ∈
        (installPlugins env dsPath l registry).1) ∧
    (∀ env inp t1 res tc cfg pinfo,
      downloadDS env (if inp.version = "" then "latest" else inp.version) inp.token =
        (t1, .ok res) →
      configStep env inp.config inp.configPath = (tc, .ok cfg) →
      getPlatformInfo env.platform env.arch = .ok pinfo →
      env.execResult (pathJoin res.path pinfo.binaryName) ["version"] = .ok () →
      failed (run env inp) = false) := by
  refine ⟨?_, ?_, ?_, ?_⟩
  · exact fun env dsPath l registry pinfo hpi =>
      installPlugins_snd_ok env dsPath l registry pinfo hpi
  · intro env dsPath l registry pinfo hpi hl
    rw [installPlugins_execCalls env dsPath l registry pinfo hpi hl, List.length_map]
  · exact fun env dsPath l registry pinfo p m hpi hl hp hm =>
      installPlugins_warn env dsPath l registry pinfo p m hpi hl hp hm
  · exact fun env inp t1 res tc cfg pinfo hdl hcfg hpi hex =>
      run_ok_not_failed env inp t1 res tc cfg pinfo hdl hcfg hpi hex

/-- A concrete environment in which every plugin install invocation
fails but the cache lookup and the self-check succeed. -/
def envPluginFail : Env :=
  { envLinux with
      cacheFind := fun t v => if t = "ds" && v = "v1.0.0" then some "/cache/hit" else none,
      execResult := fun _ a => if a = ["version"] then .ok () else .error "exit 1" }

/-- Witness for c5_best_effort: with three plugins whose installs all
fail, all three invocations are attempted, the middle failure is logged
as a warning, installPlugins reports success, and the run is not marked
failed. -/
theorem c5_best_effort_witness :
    (installPlugins envPluginFail "/cache/hit" "a,b,c" "").2 = .ok () ∧
    (execCalls (installPlugins envPluginFail "/cache/hit" "a,b,c" "").1).length =
      (parsePlugins "a,b,c").length ∧
    Effect.logWarning ("Failed to install plugin " ++ "b" ++ ": " ++ "exit 1") ∈
      (installPlugins envPluginFail "/cache/hit" "a,b,c" "").1 ∧
    failed (run envPluginFail
      { version := "v1.0.0", plugins := "a,b,c", registry := "", token := "",
        config := "", configPath := "" }) = false :=
  ⟨c5_best_effort.1 envPluginFail "/cache/hit" "a,b,c" ""
     { fileName := "ds-linux-amd64.tar.gz", binaryName := "ds", ext := "tar.gz" } (by decide),
   c5_best_effort.2.1 envPluginFail "/cache/hit" "a,b,c" ""
     { fileName := "ds-linux-amd64.tar.gz", binaryName := "ds", ext := "tar.gz" }
     (by decide) (by decide),
   c5_best_effort.2.2.1 envPluginFail "/cache/hit" "a,b,c" ""
     { fileName := "ds-linux-amd64.tar.gz", binaryName := "ds", ext := "tar.gz" } "b" "exit 1"
     (by decide) (by decide) (by decide) (by decide),
   c5_best_effort.2.2.2 envPluginFail
     { version := "v1.0.0", plugins := "a,b,c", registry := "", token := "",
       config := "", configPath := "" }
     [Effect.logInfo "Installing DS v1.0.0 for linux-x64",
      Effect.logInfo "Found DS v1.0.0 in cache", Effect.setOutput "cache-hit" "true"]
     { path := "/cache/hit", version := "v1.0.0" } [] ""
     { fileName := "ds-linux-amd64.tar.gz", binaryName := "ds", ext := "tar.gz" }
     (by decide) (by decide) (by decide) (by decide)⟩

/-- C6 (amended in the cause list: the run also reports failure when
platform resolution fails, when the chmod step fails, and when
config-path resolution or config writing fails — all of which surface
through the same top-level catch): the run succeeds on normal
completion, including when individual plugin installs fail; any error
of the install phase, the config phase or the self-check is caught and
converted to a failure report; and at most one failure message is ever
emitted. -/
theorem c6_exit_behavior :
    (∀ env inp t1 res tc cfg pinfo,
      downloadDS env (if inp.version = "" then "latest" else inp.version) inp.token =
        (t1, .ok res) →
      configStep env inp.config inp.configPath = (tc, .ok cfg) →
      getPlatformInfo env.platform env.arch = .ok pinfo →
      env.execResult (pathJoin res.path pinfo.binaryName) ["version"] = .ok () →
      failed (run env inp) = false) ∧
    (∀ env inp t1 e,
      downloadDS env (if inp.version = "" then "latest" else inp.version) inp.token =
        (t1, .error e) →
      run env inp = t1 ++ [Effect.setFailed (errMessage e)]) ∧
    (∀ env inp t1 res tc e,
      downloadDS env (if inp.version = "" then "latest" else inp.version) inp.token =
        (t1, .ok res) →
      configStep env inp.config inp.configPath = (tc, .error e) →
      failed (run env inp) = true) ∧
    (∀ env inp t1 res tc cfg pinfo m,
      downloadDS env (if inp.version = "" then "latest" else inp.version) inp.token =
        (t1, .ok res) →
      configStep env inp.config inp.configPath = (tc, .ok cfg) →
      getPlatformInfo env.platform env.arch = .ok pinfo →
      env.execResult (pathJoin res.path pinfo.binaryName) ["version"] = .error m →
      failed (run env inp) = true) ∧
    (∀ env inp, (run env inp).countP Effect.isSetFailed ≤ 1) := by
  refine ⟨?_, ?_, ?_, ?_, run_countP_setFailed_le_one⟩
  · exact fun env inp t1 res tc cfg pinfo hdl hcfg hpi hex =>
      run_ok_not_failed env inp t1 res tc cfg pinfo hdl hcfg hpi hex
  · exact fun env inp t1 e hdl => run_downloadFail env inp t1 e hdl
  · intro env inp t1 res tc e hdl hcfg
    rw [run_configFail env inp t1 res tc e hdl hcfg]
    unfold failed
    simp [List.any_append, Effect.isSetFailed]
  · intro env inp t1 res tc cfg pinfo m hdl hcfg hpi hex
    rw [run_selfcheckFail env inp t1 res tc cfg pinfo m hdl hcfg hpi hex]
    unfold failed
    simp [List.any_append, Effect.isSetFailed]

/-- A concrete win32 environment with a cached version but no APPDATA
variable. -/
def envWinC6 : Env :=
  { envLinux with
      platform := "win32",
      appdata := none,
      cacheFind := fun t v => if t = "ds" && v = "v1.0.0" then some "/cache/win" else none }

/-- The inputs of the C6 counterexample run: a pinned version and a
non-blank config content with no path override. -/
def inpC6 : Inputs :=
  { version := "v1.0.0", plugins := "", registry := "", token := "",
    config := "cfg: x", configPath := "" }

/-- Counterexample to C6 as stated: this run reports failure although
version resolution, download, extraction, binary verification and the
self-check all either succeeded or never ran — the trace contains no
network call, no extraction, no process invocation and no filesystem
mutation at all; the failure comes from config-path resolution
(MissingEnvironment), a cause absent from the list in the claim. -/
theorem c6_counterexample :
    failed (run envWinC6 inpC6) = true ∧
    Effect.setFailed (errMessage DSError.missingAppData) ∈ run envWinC6 inpC6 ∧
    (run envWinC6 inpC6).filter Effect.isMutationOrNetwork = [] := by
  exact ⟨by decide, by decide, by decide⟩

/-- A concrete environment in which the artifact download fails. -/
def envDownloadFail : Env :=
  { envLinux with downloadTool := fun _ => .error "HTTP 404" }

/-- Witness for c6_exit_behavior: a successful run is not failed, and a
failing download ends the run with exactly one wrapped failure
message. -/
theorem c6_exit_behavior_witness :
    failed (run envLinux
      { version := "v1.0.0", plugins := "", registry := "", token := "",
        config := "", configPath := "" }) = false ∧
    run envDownloadFail
      { version := "v1.0.0", plugins := "", registry := "", token := "",
        config := "", configPath := "" } =
      [Effect.logInfo "Installing DS v1.0.0 for linux-x64",
       Effect.setOutput "cache-hit" "false",
       Effect.logInfo ("Downloading from " ++
         "https://github.com/delivery-station/ds/releases/download/v1.0.0/ds-linux-amd64.tar.gz"),
       Effect.netDownload
         "https://github.com/delivery-station/ds/releases/download/v1.0.0/ds-linux-amd64.tar.gz"] ++
      [Effect.setFailed (errMessage (DSError.downloadFailed "HTTP 404"))] :=
  ⟨c6_exit_behavior.1 envLinux
     { version := "v1.0.0", plugins := "", registry := "", token := "",
       config := "", configPath := "" }
     [Effect.logInfo "Installing DS v1.0.0 for linux-x64",
      Effect.setOutput "cache-hit" "false",
      Effect.logInfo ("Downloading from " ++
        "https://github.com/delivery-station/ds/releases/download/v1.0.0/ds-linux-amd64.tar.gz"),
      Effect.netDownload
        "https://github.com/delivery-station/ds/releases/download/v1.0.0/ds-linux-amd64.tar.gz",
      Effect.logInfo "Extracting archive...", Effect.fsExtractTar "/tmp/dl",
      Effect.execBin "chmod" ["+x", "/tmp/ex/ds"],
      Effect.logInfo "Caching DS binary...", Effect.cacheInsert "/tmp/ex" "ds" "v1.0.0"]
     { path := "/cache/ds", version := "v1.0.0" } [] ""
     { fileName := "ds-linux-amd64.tar.gz", binaryName := "ds", ext := "tar.gz" }
     (by decide) (by decide) (by decide) (by decide),
   c6_exit_behavior.2.1 envDownloadFail
     { version := "v1.0.0", plugins := "", registry := "", token := "",
       config := "", configPath := "" }
     [Effect.logInfo "Installing DS v1.0.0 for linux-x64",
      Effect.setOutput "cache-hit" "false",
      Effect.logInfo ("Downloading from " ++
        "https://github.com/delivery-station/ds/releases/download/v1.0.0/ds-linux-amd64.tar.gz"),
      Effect.netDownload
        "https://github.com/delivery-station/ds/releases/download/v1.0.0/ds-linux-amd64.tar.gz"]
     (DSError.downloadFailed "HTTP 404") (by decide)⟩

/-- C7 (amended: the registry flag is appended exactly when the registry
string is non-empty — the code tests truthiness, not blankness, so a
whitespace-only override is still appended): every plugin invocation
uses the arguments plugin install name, with --registry registry
appended for a non-empty registry and nothing appended otherwise, and
the invocation list of installPlugins consists exactly of these argument
vectors. -/
theorem c7_registry_flag :
    (∀ registry p, registry ≠ "" →
      pluginArgs registry p = ["plugin", "install", p, "--registry", registry]) ∧
    (∀ p, pluginArgs "" p = ["plugin", "install", p]) ∧
    (∀ env dsPath l registry pinfo,
      getPlatformInfo env.platform env.arch = .ok pinfo → trimStr l ≠ "" →
      execCalls (installPlugins env dsPath l registry).1 =
        (parsePlugins l).map
          (fun p => (pathJoin dsPath pinfo.binaryName, pluginArgs registry p))) := by
  refine ⟨?_, ?_, ?_⟩
  · intro registry p h
    unfold pluginArgs
    rw [if_pos h]
    rfl
  · intro p
    rfl
  · exact fun env dsPath l registry pinfo hpi hl =>
      installPlugins_execCalls env dsPath l registry pinfo hpi hl

/-- Counterexample to C7 as stated: a whitespace-only registry override
is blank, yet the flag is appended to the actual invocation. -/
theorem c7_counterexample :
    trimStr " " = "" ∧
    execCalls (installPlugins envLinux "/ds" "a" " ").1 =
      [("/ds/ds", ["plugin", "install", "a", "--registry", " "])] := by
  exact ⟨by decide, by decide⟩

/-- Witness for c7_registry_flag at concrete registry values. -/
theorem c7_registry_flag_witness :
    pluginArgs "https://r.example" "a" =
      ["plugin", "install", "a", "--registry", "https://r.example"] ∧
    pluginArgs "" "a" = ["plugin", "install", "a"] ∧
    execCalls (installPlugins envLinux "/ds" "a" "https://r.example").1 =
      (parsePlugins "a").map
        (fun p => (pathJoin "/ds"
          ({ fileName := "ds-linux-amd64.tar.gz", binaryName := "ds", ext := "tar.gz" } :
            PlatformInfo).binaryName, pluginArgs "https://r.example" p)) :=
  ⟨c7_registry_flag.1 "https://r.example" "a" (by decide),
   c7_registry_flag.2.1 "a",
   c7_registry_flag.2.2 envLinux "/ds" "a" "https://r.example"
     { fileName := "ds-linux-amd64.tar.gz", binaryName := "ds", ext := "tar.gz" }
     (by decide) (by decide)⟩

/-- C8: the config writer resolves the target path (defaulting to
home/.config/ds/config.yaml when no override is given on non-windows),
creates the parent directory recursively, writes exactly the given
content, restricts the mode to 0o600 — owner read and write, no group
or other bits — immediately after the write on non-windows, and returns
the target path, which is absolute whenever the machine paths are. -/
theorem c8_write_config :
    (∀ env content providedPath target,
      resolveConfigPath env providedPath = .ok target →
      writeConfigFile env content providedPath =
        ([Effect.fsMkdirRec (dirname target), Effect.fsWriteFile target content] ++
          (if env.platform ≠ "win32" then [Effect.fsChmod target configFileMode] else []),
         .ok target)) ∧
    (∀ env, env.platform ≠ "win32" →
      resolveConfigPath env "" =
        .ok (pathJoin (pathJoin (pathJoin env.homedir ".config") "ds") "config.yaml")) ∧
    (configFileMode / 64 % 8 = 6 ∧ configFileMode % 64 = 0) ∧
    (∀ env providedPath target,
      isAbsolute env.cwd = true → isAbsolute env.homedir = true →
      (∀ s, env.appdata = some s → isAbsolute s = true) →
      resolveConfigPath env providedPath = .ok target → isAbsolute target = true) := by
  refine ⟨?_, ?_, ⟨rfl, rfl⟩, ?_⟩
  · exact fun env content providedPath target h =>
      writeConfigFile_eq env content providedPath target h
  · exact fun env hw => resolveConfigPath_default env "" rfl hw
  · exact fun env providedPath target hcwd hhome happ h =>
      resolveConfigPath_abs env providedPath target hcwd hhome happ h

/-- Witness for c8_write_config: writing "key: value" with no override
on a concrete non-windows machine produces the mkdir, the write and the
chmod to 0o600 on home/.config/ds/config.yaml, which is absolute. -/
theorem c8_write_config_witness :
    writeConfigFile envLinux "key: value" "" =
      ([Effect.fsMkdirRec (dirname "/home/user/.config/ds/config.yaml"),
        Effect.fsWriteFile "/home/user/.config/ds/config.yaml" "key: value"] ++
        (if envLinux.platform ≠ "win32" then
          [Effect.fsChmod "/home/user/.config/ds/config.yaml" configFileMode] else []),
       .ok "/home/user/.config/ds/config.yaml") ∧
    isAbsolute "/home/user/.config/ds/config.yaml" = true :=
  ⟨c8_write_config.1 envLinux "key: value" "" "/home/user/.config/ds/config.yaml" (by decide),
   c8_write_config.2.2.2 envLinux "" "/home/user/.config/ds/config.yaml"
     (by decide) (by decide) (fun s hs => by cases hs) (by decide)⟩

theorem pluginStep_shape (env : Env) (res : DownloadResult) (inp : Inputs)
    (tp : Trace) (r : Except DSError Unit)
    (h : (if inp.plugins ≠ "" then installPlugins env res.path inp.plugins inp.registry
          else (([] : Trace), Except.ok ())) = (tp, r)) :
    ∀ x ∈ tp, isPluginEffect x := by
  split at h
  · have := installPlugins_shape env res.path inp.plugins inp.registry
    rw [h] at this
    exact this
  · cases h
    simp

theorem run_eq_prefix_after_config (env : Env) (inp : Inputs) (t1 : Trace)
    (res : DownloadResult) (tc : Trace) (cfg : String)
    (hdl : downloadDS env (if inp.version = "" then "latest" else inp.version) inp.token =
      (t1, .ok res))
    (hcfg : configStep env inp.config inp.configPath = (tc, .ok cfg)) :
    ∃ rest : Trace,
      run env inp =
        t1 ++ [Effect.addPath res.path,
               Effect.logInfo ("Added " ++ res.path ++ " to PATH"),
               Effect.setOutput "version" res.version,
               Effect.setOutput "path" res.path] ++ tc ++
          [Effect.setOutput "config-path" cfg] ++ rest ∧
      (∀ x ∈ rest, isPluginEffect x ∨ (∃ b a, x = Effect.execBin b a) ∨
        (∃ m, x = Effect.setFailed m) ∨ x.isLog = true) := by
  unfold run
  dsimp only
  rw [hdl]
  dsimp only
  rw [hcfg]
  dsimp only
  split
  next e hpi =>
    refine ⟨[Effect.setFailed (errMessage e)], rfl, ?_⟩
    intro x hx
    simp only [List.mem_singleton] at hx
    subst hx
    exact Or.inr (Or.inr (Or.inl ⟨_, rfl⟩))
  next pinfo hpi =>
    split
    next m hex =>
      refine ⟨[Effect.execBin (pathJoin res.path pinfo.binaryName) ["version"],
               Effect.setFailed m], by simp [List.append_assoc], ?_⟩
      intro x hx
      simp only [List.mem_cons, List.not_mem_nil, or_false] at hx
      rcases hx with hx | hx <;> subst hx
      · exact Or.inr (Or.inl ⟨_, _, rfl⟩)
      · exact Or.inr (Or.inr (Or.inl ⟨_, rfl⟩))
    next u hex =>
      split
      next tp e hplug =>
        have htp := pluginStep_shape env res inp tp _ hplug
        refine ⟨[Effect.execBin (pathJoin res.path pinfo.binaryName) ["version"]] ++ tp ++
          [Effect.setFailed (errMessage e)], by simp [List.append_assoc], ?_⟩
        intro x hx
        simp only [List.mem_append, List.mem_cons, List.not_mem_nil, or_false] at hx
        rcases hx with (hx | hx) | hx
        · subst hx
          exact Or.inr (Or.inl ⟨_, _, rfl⟩)
        · exact Or.inl (htp x hx)
        · subst hx
          exact Or.inr (Or.inr (Or.inl ⟨_, rfl⟩))
      next tp u2 hplug =>
        have htp := pluginStep_shape env res inp tp _ hplug
        refine ⟨[Effect.execBin (pathJoin res.path pinfo.binaryName) ["version"]] ++ tp ++
          [Effect.logInfo "✓ DS setup completed successfully"],
          by simp [List.append_assoc], ?_⟩
        intro x hx
        simp only [List.mem_append, List.mem_cons, List.not_mem_nil, or_false] at hx
        rcases hx with (hx | hx) | hx
        · subst hx
          exact Or.inr (Or.inl ⟨_, _, rfl⟩)
        · exact Or.inl (htp x hx)
        · subst hx
          exact Or.inr (Or.inr (Or.inr rfl))

theorem filter_configWrite_rest (rest : Trace)
    (h : ∀ x ∈ rest, isPluginEffect x ∨ (∃ b a, x = Effect.execBin b a) ∨
      (∃ m, x = Effect.setFailed m) ∨ x.isLog = true) :
    rest.filter Effect.isConfigWrite = [] := by
  rw [List.filter_eq_nil_iff]
  intro x hx
  rcases h x hx with hh | ⟨b, a, rfl⟩ | ⟨m, rfl⟩ | hh
  · simp [(isPluginEffect_props hh).2.1]
  · simp [Effect.isConfigWrite]
  · simp [Effect.isConfigWrite]
  · cases x <;> simp_all [Effect.isLog, Effect.isConfigWrite]

/-- C9: after a successful install phase, the config-path output is the
path written when the config content is non-blank; when the content is
blank but a non-blank path override is supplied it is the resolved path,
with no config file written and no directory created anywhere in the
run; and when both are blank it is the empty string. -/
theorem c9_config_path_output :
    (∀ env inp t1 res target,
      downloadDS env (if inp.version = "" then "latest" else inp.version) inp.token =
        (t1, .ok res) →
      trimStr inp.config ≠ "" →
      resolveConfigPath env inp.configPath = .ok target →
      Effect.setOutput "config-path" target ∈ run env inp ∧
      Effect.fsWriteFile target inp.config ∈ run env inp) ∧
    (∀ env inp t1 res,
      downloadDS env (if inp.version = "" then "latest" else inp.version) inp.token =
        (t1, .ok res) →
      trimStr inp.config = "" → trimStr inp.configPath ≠ "" →
      Effect.setOutput "config-path"
          (pathResolve env.cwd (expandHome env.homedir (trimStr inp.configPath))) ∈
        run env inp ∧
      (run env inp).filter Effect.isConfigWrite = []) ∧
    (∀ env inp t1 res,
      downloadDS env (if inp.version = "" then "latest" else inp.version) inp.token =
        (t1, .ok res) →
      trimStr inp.config = "" → trimStr inp.configPath = "" →
      Effect.setOutput "config-path" "" ∈ run env inp) := by
  refine ⟨?_, ?_, ?_⟩
  · intro env inp t1 res target hdl hc hres
    obtain ⟨rest, hrun, -⟩ := run_eq_prefix_after_config env inp t1 res _ target hdl
      (configStep_write env inp.config inp.configPath target hc hres)
    rw [hrun]
    constructor <;> simp
  · intro env inp t1 res hdl hc hp
    have hcfg := configStep_resolveOnly env inp.config inp.configPath hc hp
    obtain ⟨rest, hrun, hrest⟩ := run_eq_prefix_after_config env inp t1 res [] _ hdl hcfg
    have ht1 : t1.filter Effect.isConfigWrite = [] := by
      have := filter_configWrite_downloadDS env
        (if inp.version = "" then "latest" else inp.version) inp.token
      rw [hdl] at this
      exact this
    constructor
    · rw [hrun]
      simp
    · rw [hrun]
      simp [List.filter_append, ht1, filter_configWrite_rest rest hrest,
        Effect.isConfigWrite]
  · intro env inp t1 res hdl hc hp
    have hcfg := configStep_blank env inp.config inp.configPath hc hp
    obtain ⟨rest, hrun, -⟩ := run_eq_prefix_after_config env inp t1 res [] "" hdl hcfg
    rw [hrun]
    simp

/-- Witness for c9_config_path_output: the three cases on a concrete
machine with a cached version. -/
theorem c9_config_path_output_witness :
    (Effect.setOutput "config-path" "/home/user/.config/ds/config.yaml" ∈
        run envC1 { version := "v1.2.3", plugins := "", registry := "", token := "",
                    config := "k: v", configPath := "" } ∧
      Effect.fsWriteFile "/home/user/.config/ds/config.yaml" "k: v" ∈
        run envC1 { version := "v1.2.3", plugins := "", registry := "", token := "",
                    config := "k: v", configPath := "" }) ∧
    (Effect.setOutput "config-path"
        (pathResolve envC1.cwd (expandHome envC1.homedir (trimStr "/etc/ds.yaml"))) ∈
        run envC1 { version := "v1.2.3", plugins := "", registry := "", token := "",
                    config := "", configPath := "/etc/ds.yaml" } ∧
      (run envC1 { version := "v1.2.3", plugins := "", registry := "", token := "",
                   config := "", configPath := "/etc/ds.yaml" }).filter
        Effect.isConfigWrite = []) ∧
    Effect.setOutput "config-path" "" ∈
      run envC1 { version := "v1.2.3", plugins := "", registry := "", token := "",
                  config := "", configPath := "" } :=
  ⟨c9_config_path_output.1 envC1
     { version := "v1.2.3", plugins := "", registry := "", token := "",
       config := "k: v", configPath := "" }
     [Effect.logInfo "Installing DS v1.2.3 for linux-x64",
      Effect.logInfo "Found DS v1.2.3 in cache", Effect.setOutput "cache-hit" "true"]
     { path := "/cache/hit", version := "v1.2.3" } "/home/user/.config/ds/config.yaml"
     (by decide) (by decide) (by decide),
   c9_config_path_output.2.1 envC1
     { version := "v1.2.3", plugins := "", registry := "", token := "",
       config := "", configPath := "/etc/ds.yaml" }
     [Effect.logInfo "Installing DS v1.2.3 for linux-x64",
      Effect.logInfo "Found DS v1.2.3 in cache", Effect.setOutput "cache-hit" "true"]
     { path := "/cache/hit", version := "v1.2.3" }
     (by decide) (by decide) (by decide),
   c9_config_path_output.2.2 envC1
     { version := "v1.2.3", plugins := "", registry := "", token := "",
       config := "", configPath := "" }
     [Effect.logInfo "Installing DS v1.2.3 for linux-x64",
      Effect.logInfo "Found DS v1.2.3 in cache", Effect.setOutput "cache-hit" "true"]
     { path := "/cache/hit", version := "v1.2.3" }
     (by decide) (by decide) (by decide)⟩

/-- C10 (amended in its last part: a fatal failure of config writing
leaves version and path set while config-path is never set, but a fatal
self-check failure occurs after the config-path output has already been
set): the cache-hit output is set to false before any download begins
and survives a later download failure, and the version and path outputs
are set before the config phase and survive its failure. -/
theorem c10_outputs_survive :
    (∀ env v tok pinfo,
      getPlatformInfo env.platform env.arch = .ok pinfo → v ≠ "latest" →
      env.cacheFind "ds" v = none →
      Effect.setOutput "cache-hit" "false" ∈ (downloadDS env v tok).1) ∧
    (∀ env inp t1 e,
      downloadDS env (if inp.version = "" then "latest" else inp.version) inp.token =
        (t1, .error e) →
      (∀ x ∈ t1, x ∈ run env inp) ∧ failed (run env inp) = true) ∧
    (∀ env inp t1 res tc e,
      downloadDS env (if inp.version = "" then "latest" else inp.version) inp.token =
        (t1, .ok res) →
      configStep env inp.config inp.configPath = (tc, .error e) →
      Effect.setOutput "version" res.version ∈ run env inp ∧
      Effect.setOutput "path" res.path ∈ run env inp ∧
      (run env inp).filter Effect.isConfigPathOutput = [] ∧
      failed (run env inp) = true) ∧
    (∀ env inp t1 res tc cfg pinfo m,
      downloadDS env (if inp.version = "" then "latest" else inp.version) inp.token =
        (t1, .ok res) →
      configStep env inp.config inp.configPath = (tc, .ok cfg) →
      getPlatformInfo env.platform env.arch = .ok pinfo →
      env.execResult (pathJoin res.path pinfo.binaryName) ["version"] = .error m →
      Effect.setOutput "version" res.version ∈ run env inp ∧
      Effect.setOutput "config-path" cfg ∈ run env inp ∧
      failed (run env inp) = true) := by
  refine ⟨?_, ?_, ?_, ?_⟩
  · intro env v tok pinfo hpi hv hc
    unfold downloadDS
    rw [hpi, resolveVersion_of_ne env hv]
    dsimp only
    rw [hc]
    dsimp only
    split
    · simp
    next dp hdp =>
      split
      next te m he => simp
      next te ep he =>
        split
        · split
          next tc m hch => simp
          next tc u hch => simp
        · simp
  · intro env inp t1 e hdl
    rw [run_downloadFail env inp t1 e hdl]
    constructor
    · intro x hx
      exact List.mem_append_left _ hx
    · unfold failed
      simp [List.any_append, Effect.isSetFailed]
  · intro env inp t1 res tc e hdl hcfg
    have heq := run_configFail env inp t1 res tc e hdl hcfg
    have ht1 : t1.filter Effect.isConfigPathOutput = [] := by
      have := filter_configPathOutput_downloadDS env
        (if inp.version = "" then "latest" else inp.version) inp.token
      rw [hdl] at this
      exact this
    have htc : tc.filter Effect.isConfigPathOutput = [] := by
      have := filter_configPathOutput_configStep env inp.config inp.configPath
      rw [hcfg] at this
      exact this
    rw [heq]
    refine ⟨by simp, by simp, ?_, ?_⟩
    · simp [List.filter_append, ht1, htc, Effect.isConfigPathOutput]
    · unfold failed
      simp [List.any_append, Effect.isSetFailed]
  · intro env inp t1 res tc cfg pinfo m hdl hcfg hpi hex
    rw [run_selfcheckFail env inp t1 res tc cfg pinfo m hdl hcfg hpi hex]
    refine ⟨by simp, by simp, ?_⟩
    unfold failed
    simp [List.any_append, Effect.isSetFailed]

/-- A concrete environment with a cached version whose binary self-check
invocation fails. -/
def envSelfcheckFail : Env :=
  { envLinux with
      cacheFind := fun t v => if t = "ds" && v = "v1.0.0" then some "/cache/hit" else none,
      execResult := fun _ a => if a = ["version"] then .error "exit 1" else .ok () }

/-- Counterexample to C10 as stated: a fatal error in the binary
self-check — one of the steps after which the claim says config-path is
never set — leaves the run failed with the config-path output already
set (to the empty string). -/
theorem c10_counterexample :
    failed (run envSelfcheckFail
      { version := "v1.0.0", plugins := "", registry := "", token := "",
        config := "", configPath := "" }) = true ∧
    Effect.setOutput "config-path" "" ∈
      run envSelfcheckFail
        { version := "v1.0.0", plugins := "", registry := "", token := "",
          config := "", configPath := "" } ∧
    Effect.setOutput "version" "v1.0.0" ∈
      run envSelfcheckFail
        { version := "v1.0.0", plugins := "", registry := "", token := "",
          config := "", configPath := "" } := by
  exact ⟨by decide, by decide, by decide⟩

/-- Witness for c10_outputs_survive: the cache-hit output is emitted on
a concrete cache miss whose download then fails, and the whole failing
run still contains it. -/
theorem c10_outputs_survive_witness :
    Effect.setOutput "cache-hit" "false" ∈ (downloadDS envDownloadFail "v1.0.0" "").1 ∧
    Effect.setOutput "cache-hit" "false" ∈
      run envDownloadFail
        { version := "v1.0.0", plugins := "", registry := "", token := "",
          config := "", configPath := "" } ∧
    failed (run envDownloadFail
      { version := "v1.0.0", plugins := "", registry := "", token := "",
        config := "", configPath := "" }) = true :=
  ⟨c10_outputs_survive.1 envDownloadFail "v1.0.0" ""
     { fileName := "ds-linux-amd64.tar.gz", binaryName := "ds", ext := "tar.gz" }
     (by decide) (by decide) (by decide),
   (c10_outputs_survive.2.1 envDownloadFail
     { version := "v1.0.0", plugins := "", registry := "", token := "",
       config := "", configPath := "" }
     [Effect.logInfo "Installing DS v1.0.0 for linux-x64",
      Effect.setOutput "cache-hit" "false",
      Effect.logInfo ("Downloading from " ++
        "https://github.com/delivery-station/ds/releases/download/v1.0.0/ds-linux-amd64.tar.gz"),
      Effect.netDownload
        "https://github.com/delivery-station/ds/releases/download/v1.0.0/ds-linux-amd64.tar.gz"]
     (DSError.downloadFailed "HTTP 404") (by decide)).1
     (Effect.setOutput "cache-hit" "false") (by decide),
   (c10_outputs_survive.2.1 envDownloadFail
     { version := "v1.0.0", plugins := "", registry := "", token := "",
       config := "", configPath := "" }
     [Effect.logInfo "Installing DS v1.0.0 for linux-x64",
      Effect.setOutput "cache-hit" "false",
      Effect.logInfo ("Downloading from " ++
        "https://github.com/delivery-station/ds/releases/download/v1.0.0/ds-linux-amd64.tar.gz"),
      Effect.netDownload
        "https://github.com/delivery-station/ds/releases/download/v1.0.0/ds-linux-amd64.tar.gz"]
     (DSError.downloadFailed "HTTP 404") (by decide)).2⟩
